import Mathlib

/-!
Verification of the identifier-mapping and row-wise train/test-split layer of
the `irspack` recommendation toolkit, as a shallow embedding in Lean.

Sources embedded:
* `irspack/utils/__init__.py` — `rowwise_train_test_split`: ratio validation,
  seed drawing, dtype dispatch to native kernels with a float64 fallback.
* The native kernels (`rowwise_train_test_split_{f,d,i}` from `_util_cpp`) are
  compiled C++ not present in the snapshot; they are modelled from the spec
  (each nonzero entry of each row independently goes to the test partition
  with probability `test_ratio`, seeded and reproducible, zeros stay zero).
* `irspack/utils/id_mapping.py` — `IDMappedRecommender` — is exercised by
  `tests/utils/test_id_mapper.py` but its code is not in the snapshot; it is
  modelled from the spec (IdentifierIndex construction validation, known-user
  recommendation with seen/forbidden exclusion, allow-list restriction,
  score-descending ranking with index tie-break, cutoff truncation).

Python `float` values are modelled as rationals extended with a NaN point;
IEEE comparison semantics (every comparison involving NaN is false) is
embedded explicitly so that the NaN behaviour of the ratio guard is faithful.
Matrix element values are modelled as exact rationals; the numpy dtype is a
separate tag carried by the matrix, since the dispatch logic branches on it.
-/

namespace Irspack

/-- Model of a Python `float`: a rational value or NaN.  Infinities are not
needed by any embedded code path. -/
inductive PyFloat where
  | val (q : ℚ)
  | nan
deriving DecidableEq

/-- IEEE-754 `<` on modelled floats: any comparison involving NaN is false. -/
def PyFloat.lt : PyFloat → PyFloat → Bool
  | .val a, .val b => decide (a < b)
  | _, _ => false

/-- numpy dtype tag of a sparse matrix; `other` covers every element type that
is not one of the three with a specialized native kernel. -/
inductive DType where
  | float32
  | float64
  | int64
  | other (name : String)
deriving DecidableEq

/-- `true` exactly on the dtypes with no specialized kernel. -/
def DType.isOther : DType → Bool
  | .other _ => true
  | _ => false

/-- A sparse row-major interaction matrix: a dtype tag and the dense row
contents (zero entries are the non-stored ones). -/
structure SciMatrix where
  dtype : DType
  rows : List (List ℚ)
deriving DecidableEq

/-- `X.astype(d)`: changes the dtype tag.  Element values are modelled as
exact rationals, so the value content is preserved by the model. -/
def SciMatrix.astype (X : SciMatrix) (d : DType) : SciMatrix :=
  ⟨d, X.rows⟩

/-- Modelled from the spec: the seeded Bernoulli draw of the native kernels.
Entry `(i, j)` is assigned to the test partition iff a deterministic
pseudo-random value `v/1000 ∈ [0, 1)` derived from the seed is below
`test_ratio`.  The comparison `v/1000 < num/den` is written denominator-free
as `v * den < 1000 * num`; a NaN ratio compares false, sending every entry to
train. -/
def assignOfSeed (seed : Int) (ratio : PyFloat) (i j : Nat) : Bool :=
  match ratio with
  | .val q => decide (((seed.natAbs + 31 * i + 17 * j) % 1000 : ℤ) * q.den < 1000 * q.num)
  | .nan => false

/-- Modelled from the spec: per-row split.  Each nonzero entry goes to test
when `assign` selects it and to train otherwise; zero entries stay zero in
both outputs. -/
def splitRow (assign : Nat → Bool) (row : List ℚ) : List ℚ × List ℚ :=
  ((List.range row.length).map fun j =>
      if row.getD j 0 ≠ 0 ∧ assign j = false then row.getD j 0 else 0,
   (List.range row.length).map fun j =>
      if row.getD j 0 ≠ 0 ∧ assign j = true then row.getD j 0 else 0)

/-- Modelled from the spec: the split applied row by row (row-local: row `i`
of each output depends only on row `i` of the input). -/
def splitRows (assign : Nat → Nat → Bool) (rows : List (List ℚ)) :
    List (List ℚ) × List (List ℚ) :=
  ((List.range rows.length).map fun i => (splitRow (assign i) (rows.getD i [])).1,
   (List.range rows.length).map fun i => (splitRow (assign i) (rows.getD i [])).2)

/-- Modelled from the spec: the common body of the three native kernels; the
outputs keep the dtype of the input. -/
def kernelSplit (X : SciMatrix) (ratio : PyFloat) (seed : Int) :
    SciMatrix × SciMatrix :=
  (⟨X.dtype, (splitRows (assignOfSeed seed ratio) X.rows).1⟩,
   ⟨X.dtype, (splitRows (assignOfSeed seed ratio) X.rows).2⟩)

/-- Modelled from the spec: the float32-specialized native kernel. -/
def rowwise_train_test_split_f : SciMatrix → PyFloat → Int → SciMatrix × SciMatrix :=
  kernelSplit

/-- Modelled from the spec: the float64-specialized native kernel. -/
def rowwise_train_test_split_d : SciMatrix → PyFloat → Int → SciMatrix × SciMatrix :=
  kernelSplit

/-- Modelled from the spec: the int64-specialized native kernel. -/
def rowwise_train_test_split_i : SciMatrix → PyFloat → Int → SciMatrix × SciMatrix :=
  kernelSplit

/-- Model of Python `random.randint lo hi` (both endpoints inclusive): the
process-wide random source is modelled by an ambient `entropy` value reduced
into the requested range. -/
def randint (lo hi : Int) (entropy : Nat) : Int :=
  lo + Int.ofNat (entropy % (hi - lo + 1).toNat)

/-- The seed that reaches the kernel: lines 19–20 of
`irspack/utils/__init__.py` draw `random.randint(-(2 ** 32), 2 ** 32 - 1)`
when `random_seed is None` and keep an explicit seed unchanged. -/
def effectiveSeed (random_seed : Option Int) (entropy : Nat) : Int :=
  match random_seed with
  | none => randint (-(2 ^ 32)) (2 ^ 32 - 1) entropy
  | some s => s

/-- The error raised by `rowwise_train_test_split`: `ValueError` on an
out-of-range `test_ratio`. -/
inductive PyError where
  | valueError
deriving DecidableEq

/-- The dtype dispatch of `rowwise_train_test_split` (lines 21–36): the three
specialized kernels, and for any other dtype an upcast to float64, a split
with the float64 kernel, and a cast of both outputs back to the original
dtype. -/
def splitDispatch (X : SciMatrix) (test_ratio : PyFloat) (seed : Int) :
    SciMatrix × SciMatrix :=
  match X.dtype with
  | .float32 => rowwise_train_test_split_f X test_ratio seed
  | .float64 => rowwise_train_test_split_d X test_ratio seed
  | .int64 => rowwise_train_test_split_i X test_ratio seed
  | .other nm =>
      let X_double := X.astype .float64
      let p := rowwise_train_test_split_d X_double test_ratio seed
      (p.1.astype (.other nm), p.2.astype (.other nm))

/-- `rowwise_train_test_split` of `irspack/utils/__init__.py`: the guard
`test_ratio < 0 or test_ratio > 1.0` raises `ValueError`; otherwise the seed
is resolved and the dtype dispatch runs.  `entropy` stands for the
process-wide random state consumed only when `random_seed` is `None`. -/
def rowwise_train_test_split (X : SciMatrix) (test_ratio : PyFloat)
    (random_seed : Option Int) (entropy : Nat) :
    Except PyError (SciMatrix × SciMatrix) :=
  if PyFloat.lt test_ratio (.val 0) || PyFloat.lt (.val 1) test_ratio then
    .error .valueError
  else
    .ok (splitDispatch X test_ratio (effectiveSeed random_seed entropy))

/-- The set of column indices holding a nonzero entry of a row. -/
def nonzeroIdx (row : List ℚ) : Finset ℕ :=
  (Finset.range row.length).filter (fun j => row.getD j 0 ≠ 0)

/-- Errors of the identifier-mapping layer: `validation` models the
`ValueError` raised at construction, `unknownUser` the `RuntimeError` raised
for an unresolvable user identifier.  The two are distinct constructors, as
the spec requires the runtime error to be distinct from validation errors. -/
inductive RecError where
  | validation
  | unknownUser
deriving DecidableEq

/-- Modelled from the spec: the state of `IDMappedRecommender`
(`irspack/utils/id_mapping.py`, not in the snapshot): the external user and
item identifier sequences of the IdentifierIndex, the interaction-matrix rows
(nonzero entry = observed interaction), and the score row the Scorer
collaborator returns for each user index. -/
structure IDMappedRecommender where
  userIds : List String
  itemIds : List String
  matrixRows : List (List ℚ)
  scoreRows : List (List ℚ)
deriving DecidableEq

/-- First-occurrence index of an external identifier, `none` when absent:
the dictionary lookup of the IdentifierIndex. -/
def lookupIndex (x : String) : List String → Option Nat
  | [] => none
  | y :: ys => if y = x then some 0 else (lookupIndex x ys).map (· + 1)

/-- Modelled from the spec: IdentifierIndex construction (§4.1) validates
`len(user_ids) == rows` and `len(item_ids) == columns` against the
interaction-matrix shape and fails with the validation error before any
mapping is built. -/
def IDMappedRecommender.create (userIds itemIds : List String)
    (nRows nCols : Nat) (matrixRows scoreRows : List (List ℚ)) :
    Except RecError IDMappedRecommender :=
  if userIds.length = nRows ∧ itemIds.length = nCols then
    .ok ⟨userIds, itemIds, matrixRows, scoreRows⟩
  else
    .error .validation

/-- Modelled from the spec: item index `j` survives the filters of
`recommend_for_known_user` (§4.2 steps 3–4) iff the user has no interaction
at column `j`, its external identifier is not forbidden, and, when an allow
list is given, its external identifier is in it. -/
def candidatePred (r : IDMappedRecommender) (uidx : Nat)
    (forbidden : List String) (allowed : Option (List String)) (j : Nat) : Prop :=
  (r.matrixRows.getD uidx []).getD j 0 = 0 ∧
  r.itemIds.getD j "" ∉ forbidden ∧
  ∀ al ∈ allowed, r.itemIds.getD j "" ∈ al

instance (r : IDMappedRecommender) (uidx : Nat) (forbidden : List String)
    (allowed : Option (List String)) (j : Nat) :
    Decidable (candidatePred r uidx forbidden allowed j) :=
  inferInstanceAs (Decidable ((r.matrixRows.getD uidx []).getD j 0 = 0 ∧
    r.itemIds.getD j "" ∉ forbidden ∧ ∀ al ∈ allowed, r.itemIds.getD j "" ∈ al))

/-- The candidate set after exclusion and allow/forbid filtering, in
ascending item-index order. -/
def candidateIndices (r : IDMappedRecommender) (uidx : Nat)
    (forbidden : List String) (allowed : Option (List String)) : List Nat :=
  (List.range r.itemIds.length).filter
    (fun j => decide (candidatePred r uidx forbidden allowed j))

/-- Ranking order of §4.2 step 5: score descending, ties broken by ascending
internal item index. -/
def rankBefore (s : List ℚ) (j1 j2 : Nat) : Prop :=
  s.getD j2 0 < s.getD j1 0 ∨ (s.getD j1 0 = s.getD j2 0 ∧ j1 ≤ j2)

instance (s : List ℚ) : DecidableRel (rankBefore s) := fun j1 j2 =>
  inferInstanceAs (Decidable
    (s.getD j2 0 < s.getD j1 0 ∨ (s.getD j1 0 = s.getD j2 0 ∧ j1 ≤ j2)))

/-- Modelled from the spec: `get_recommendation_for_known_user_id` (§4.2).
Resolve the user (unknown → runtime error), fetch the Scorer's row, filter
candidates, rank them score-descending with index tie-break, truncate to
`cutoff` and translate back to `(external_item_id, score)` pairs. -/
def get_recommendation_for_known_user_id (r : IDMappedRecommender)
    (userId : String) (cutoff : Nat) (forbidden : List String)
    (allowed : Option (List String)) : Except RecError (List (String × ℚ)) :=
  match lookupIndex userId r.userIds with
  | none => .error .unknownUser
  | some uidx =>
      let s := r.scoreRows.getD uidx []
      .ok ((((candidateIndices r uidx forbidden allowed).insertionSort
              (rankBefore s)).take cutoff).map
        fun j => (r.itemIds.getD j "", s.getD j 0))

/-- A two-user, three-item instance used by the concrete witnesses. -/
def sampleRec : IDMappedRecommender :=
  ⟨["u0", "u1"], ["a", "b", "c"], [[1, 0, 0], [0, 1, 0]], [[3, 2, 1], [1, 2, 3]]⟩

example : rowwise_train_test_split ⟨.float64, [[1, 0, 2]]⟩ (.val 1) (some 7) 0 =
    .ok (⟨.float64, [[0, 0, 0]]⟩, ⟨.float64, [[1, 0, 2]]⟩) := by rfl

example : rowwise_train_test_split ⟨.float64, [[1]]⟩ (.val 2) none 0 =
    .error .valueError := by rfl

example : get_recommendation_for_known_user_id sampleRec "u0" 3 ["b"] none =
    .ok [("c", 1)] := by rfl

example : get_recommendation_for_known_user_id sampleRec "u1" 1 [] none =
    .ok [("c", 3)] := by rfl

example : get_recommendation_for_known_user_id sampleRec "u0" 3 ["c"] (some ["c"]) =
    .ok [] := by rfl

example : get_recommendation_for_known_user_id sampleRec "zz" 3 [] none =
    .error .unknownUser := by rfl

theorem getD_map_range {α : Type _} (d : α) (f : ℕ → α) (n j : ℕ) :
    ((List.range n).map f).getD j d = if j < n then f j else d := by
  by_cases h : j < n
  · simp [List.getD_eq_getElem?_getD, List.getElem?_map, List.getElem?_range, h]
  · rw [List.getD_eq_getElem?_getD, List.getElem?_eq_none]
    · simp [h]
    · simpa using Nat.le_of_not_lt h

theorem guard_false_of_valid (q : ℚ) (h0 : 0 ≤ q) (h1 : q ≤ 1) :
    (PyFloat.lt (.val q) (.val 0) || PyFloat.lt (.val 1) (.val q)) = false := by
  simp only [PyFloat.lt, Bool.or_eq_false_iff, decide_eq_false_iff_not]
  exact ⟨not_lt.mpr h0, not_lt.mpr h1⟩

theorem split_valid_eq (X : SciMatrix) (q : ℚ) (rs : Option Int) (e : Nat)
    (h0 : 0 ≤ q) (h1 : q ≤ 1) :
    rowwise_train_test_split X (.val q) rs e =
      .ok (splitDispatch X (.val q) (effectiveSeed rs e)) := by
  unfold rowwise_train_test_split
  rw [guard_false_of_valid q h0 h1]
  rfl

theorem split_ok_inv (X : SciMatrix) (ratio : PyFloat) (rs : Option Int) (e : Nat)
    (tr te : SciMatrix)
    (h : rowwise_train_test_split X ratio rs e = .ok (tr, te)) :
    tr = (splitDispatch X ratio (effectiveSeed rs e)).1 ∧
    te = (splitDispatch X ratio (effectiveSeed rs e)).2 := by
  unfold rowwise_train_test_split at h
  split at h
  · exact absurd h (by simp)
  · rw [Except.ok.injEq] at h
    exact ⟨(congrArg Prod.fst h).symm, (congrArg Prod.snd h).symm⟩

theorem splitDispatch_fst_dtype (X : SciMatrix) (ratio : PyFloat) (seed : Int) :
    (splitDispatch X ratio seed).1.dtype = X.dtype := by
  rcases X with ⟨dt, rows⟩
  cases dt <;> rfl

theorem splitDispatch_snd_dtype (X : SciMatrix) (ratio : PyFloat) (seed : Int) :
    (splitDispatch X ratio seed).2.dtype = X.dtype := by
  rcases X with ⟨dt, rows⟩
  cases dt <;> rfl

theorem splitDispatch_fst_rows (X : SciMatrix) (ratio : PyFloat) (seed : Int) :
    (splitDispatch X ratio seed).1.rows =
      (splitRows (assignOfSeed seed ratio) X.rows).1 := by
  rcases X with ⟨dt, rows⟩
  cases dt <;> rfl

theorem splitDispatch_snd_rows (X : SciMatrix) (ratio : PyFloat) (seed : Int) :
    (splitDispatch X ratio seed).2.rows =
      (splitRows (assignOfSeed seed ratio) X.rows).2 := by
  rcases X with ⟨dt, rows⟩
  cases dt <;> rfl

/-- C6: a `test_ratio` outside `[0, 1]` makes `rowwise_train_test_split` fail
with the validation error for every matrix, seed argument and state of the
process-wide random source (so no seed is drawn and no kernel runs), while
any `test_ratio` inside `[0, 1]`, endpoints included, is accepted and
produces a result rather than a validation error. -/
theorem C6_ratio_validation (q : ℚ) :
    ((q < 0 ∨ 1 < q) → ∀ (X : SciMatrix) (rs : Option Int) (e : Nat),
        rowwise_train_test_split X (.val q) rs e = .error .valueError) ∧
    (0 ≤ q → q ≤ 1 → ∀ (X : SciMatrix) (rs : Option Int) (e : Nat),
        ∃ p, rowwise_train_test_split X (.val q) rs e = .ok p) := by
  constructor
  · intro hq X rs e
    unfold rowwise_train_test_split
    have hg : (PyFloat.lt (.val q) (.val 0) || PyFloat.lt (.val 1) (.val q)) = true := by
      simp only [PyFloat.lt, Bool.or_eq_true, decide_eq_true_eq]
      exact hq
    rw [hg]
    rfl
  · intro h0 h1 X rs e
    exact ⟨_, split_valid_eq X q rs e h0 h1⟩

/-- Witness for C6 at the concrete ratios `2` (rejected) and `1` (accepted). -/
theorem C6_ratio_validation_witness :
    rowwise_train_test_split ⟨.float64, [[1]]⟩ (.val 2) none 0 = .error .valueError ∧
    ∃ p, rowwise_train_test_split ⟨.float64, [[1]]⟩ (.val 1) none 0 = .ok p :=
  ⟨(C6_ratio_validation 2).1 (Or.inr (by norm_num)) _ none 0,
   (C6_ratio_validation 1).2 (by norm_num) (by norm_num) _ none 0⟩

/-- C7: whenever `rowwise_train_test_split` returns, both outputs carry the
element type of the input; and for an element type with no specialized
kernel, the result is exactly the float64-kernel split of the float64 upcast
with both outputs cast back to the original element type. -/
theorem C7_dtype_roundtrip (X : SciMatrix) (ratio : PyFloat) (rs : Option Int)
    (e : Nat) (tr te : SciMatrix)
    (h : rowwise_train_test_split X ratio rs e = .ok (tr, te)) :
    tr.dtype = X.dtype ∧ te.dtype = X.dtype ∧
    (X.dtype.isOther = true →
      tr = ((rowwise_train_test_split_d (X.astype .float64) ratio
              (effectiveSeed rs e)).1).astype X.dtype ∧
      te = ((rowwise_train_test_split_d (X.astype .float64) ratio
              (effectiveSeed rs e)).2).astype X.dtype) := by
  obtain ⟨h1, h2⟩ := split_ok_inv X ratio rs e tr te h
  subst h1
  subst h2
  refine ⟨splitDispatch_fst_dtype X ratio _, splitDispatch_snd_dtype X ratio _, ?_⟩
  intro hother
  rcases X with ⟨dt, rows⟩
  cases dt <;> simp_all [DType.isOther]
  exact ⟨rfl, rfl⟩

/-- Witness for C7 on a concrete matrix with the unspecialized dtype
`int32`. -/
theorem C7_dtype_roundtrip_witness :
    ((splitDispatch ⟨.other "int32", [[1]]⟩ (.val 1) 5).1).dtype =
      (⟨.other "int32", [[1]]⟩ : SciMatrix).dtype ∧
    ((splitDispatch ⟨.other "int32", [[1]]⟩ (.val 1) 5).2).dtype =
      (⟨.other "int32", [[1]]⟩ : SciMatrix).dtype ∧
    ((⟨.other "int32", [[1]]⟩ : SciMatrix).dtype.isOther = true →
      (splitDispatch ⟨.other "int32", [[1]]⟩ (.val 1) 5).1 =
        ((rowwise_train_test_split_d
            ((⟨.other "int32", [[1]]⟩ : SciMatrix).astype .float64) (.val 1)
            (effectiveSeed (some 5) 0)).1).astype
          (⟨.other "int32", [[1]]⟩ : SciMatrix).dtype ∧
      (splitDispatch ⟨.other "int32", [[1]]⟩ (.val 1) 5).2 =
        ((rowwise_train_test_split_d
            ((⟨.other "int32", [[1]]⟩ : SciMatrix).astype .float64) (.val 1)
            (effectiveSeed (some 5) 0)).2).astype
          (⟨.other "int32", [[1]]⟩ : SciMatrix).dtype) :=
  C7_dtype_roundtrip ⟨.other "int32", [[1]]⟩ (.val 1) (some 5) 0 _ _ (by rfl)

/-- C8: with `random_seed` omitted the seed that reaches the kernel is drawn
from the inclusive range `[-2^32, 2^32 - 1]` of the process-wide source,
whatever its state; an explicit seed reaches the kernel dispatch unchanged;
and on a valid ratio the function returns exactly the dispatch applied at
that effective seed. -/
theorem C8_seed_range_and_passthrough (s : Int) (e : Nat) (X : SciMatrix)
    (q : ℚ) (h0 : 0 ≤ q) (h1 : q ≤ 1) :
    (-(2 ^ 32) ≤ effectiveSeed none e ∧ effectiveSeed none e ≤ 2 ^ 32 - 1) ∧
    effectiveSeed (some s) e = s ∧
    rowwise_train_test_split X (.val q) (some s) e =
      .ok (splitDispatch X (.val q) s) ∧
    rowwise_train_test_split X (.val q) none e =
      .ok (splitDispatch X (.val q) (effectiveSeed none e)) := by
  refine ⟨?_, rfl, split_valid_eq X q (some s) e h0 h1,
    split_valid_eq X q none e h0 h1⟩
  simp only [effectiveSeed, randint]
  have htn : ((2 ^ 32 - 1 : ℤ) - -(2 ^ 32) + 1).toNat = 2 ^ 33 := by decide
  rw [htn]
  have hm : e % 2 ^ 33 < 2 ^ 33 := Nat.mod_lt _ (by norm_num)
  simp only [Int.ofNat_eq_coe]
  omega

/-- Witness for C8 at seed `5`, entropy `0`, ratio `1`. -/
theorem C8_seed_range_and_passthrough_witness :
    (-(2 ^ 32) ≤ effectiveSeed none 0 ∧ effectiveSeed none 0 ≤ 2 ^ 32 - 1) ∧
    effectiveSeed (some 5) 0 = 5 ∧
    rowwise_train_test_split ⟨.float64, [[1]]⟩ (.val 1) (some 5) 0 =
      .ok (splitDispatch ⟨.float64, [[1]]⟩ (.val 1) 5) ∧
    rowwise_train_test_split ⟨.float64, [[1]]⟩ (.val 1) none 0 =
      .ok (splitDispatch ⟨.float64, [[1]]⟩ (.val 1) (effectiveSeed none 0)) :=
  C8_seed_range_and_passthrough 5 0 ⟨.float64, [[1]]⟩ 1 (by norm_num) (by norm_num)

/-- C10: a NaN `test_ratio` makes both strict comparisons of the range guard
false, so no validation error is raised and the dtype dispatch and kernel
invocation proceed with the NaN ratio. -/
theorem C10_nan_skips_guard (X : SciMatrix) (rs : Option Int) (e : Nat) :
    PyFloat.lt .nan (.val 0) = false ∧ PyFloat.lt (.val 1) .nan = false ∧
    rowwise_train_test_split X .nan rs e =
      .ok (splitDispatch X .nan (effectiveSeed rs e)) :=
  ⟨rfl, rfl, rfl⟩

theorem length_splitRow_fst (assign : Nat → Bool) (row : List ℚ) :
    (splitRow assign row).1.length = row.length := by
  simp [splitRow]

theorem length_splitRow_snd (assign : Nat → Bool) (row : List ℚ) :
    (splitRow assign row).2.length = row.length := by
  simp [splitRow]

theorem getD_splitRow_fst (assign : Nat → Bool) (row : List ℚ) (j : Nat) :
    (splitRow assign row).1.getD j 0 =
      if j < row.length ∧ row.getD j 0 ≠ 0 ∧ assign j = false
      then row.getD j 0 else 0 := by
  unfold splitRow
  rw [getD_map_range]
  by_cases hj : j < row.length <;> simp [hj]

theorem getD_splitRow_snd (assign : Nat → Bool) (row : List ℚ) (j : Nat) :
    (splitRow assign row).2.getD j 0 =
      if j < row.length ∧ row.getD j 0 ≠ 0 ∧ assign j = true
      then row.getD j 0 else 0 := by
  unfold splitRow
  rw [getD_map_range]
  by_cases hj : j < row.length <;> simp [hj]

theorem nonzeroIdx_splitRow_fst (assign : Nat → Bool) (row : List ℚ) :
    nonzeroIdx (splitRow assign row).1 =
      (nonzeroIdx row).filter (fun j => assign j = false) := by
  ext j
  simp only [nonzeroIdx, length_splitRow_fst, Finset.mem_filter, Finset.mem_range,
    getD_splitRow_fst]
  constructor
  · rintro ⟨hj, hne⟩
    by_cases hc : j < row.length ∧ row.getD j 0 ≠ 0 ∧ assign j = false
    · exact ⟨⟨hj, hc.2.1⟩, hc.2.2⟩
    · rw [if_neg hc] at hne
      exact absurd rfl hne
  · rintro ⟨⟨hj, hne⟩, ha⟩
    refine ⟨hj, ?_⟩
    rw [if_pos ⟨hj, hne, ha⟩]
    exact hne

theorem nonzeroIdx_splitRow_snd (assign : Nat → Bool) (row : List ℚ) :
    nonzeroIdx (splitRow assign row).2 =
      (nonzeroIdx row).filter (fun j => assign j = true) := by
  ext j
  simp only [nonzeroIdx, length_splitRow_snd, Finset.mem_filter, Finset.mem_range,
    getD_splitRow_snd]
  constructor
  · rintro ⟨hj, hne⟩
    by_cases hc : j < row.length ∧ row.getD j 0 ≠ 0 ∧ assign j = true
    · exact ⟨⟨hj, hc.2.1⟩, hc.2.2⟩
    · rw [if_neg hc] at hne
      exact absurd rfl hne
  · rintro ⟨⟨hj, hne⟩, ha⟩
    refine ⟨hj, ?_⟩
    rw [if_pos ⟨hj, hne, ha⟩]
    exact hne

theorem splitRow_partition (assign : Nat → Bool) (row : List ℚ) :
    Disjoint (nonzeroIdx (splitRow assign row).1) (nonzeroIdx (splitRow assign row).2) ∧
    nonzeroIdx (splitRow assign row).1 ∪ nonzeroIdx (splitRow assign row).2 =
      nonzeroIdx row := by
  rw [nonzeroIdx_splitRow_fst, nonzeroIdx_splitRow_snd]
  constructor
  · rw [Finset.disjoint_left]
    intro j hj1 hj2
    rw [Finset.mem_filter] at hj1 hj2
    rw [hj1.2] at hj2
    exact Bool.false_ne_true hj2.2
  · have hcong : (nonzeroIdx row).filter (fun j => assign j = false) =
        (nonzeroIdx row).filter (fun j => ¬ assign j = true) := by
      apply Finset.filter_congr
      intro j _
      simp
    rw [hcong, Finset.union_comm]
    exact Finset.filter_union_filter_neg_eq _ (nonzeroIdx row)

theorem getD_splitRows_fst (assign : Nat → Nat → Bool) (rows : List (List ℚ)) (i : Nat) :
    (splitRows assign rows).1.getD i [] =
      if i < rows.length then (splitRow (assign i) (rows.getD i [])).1 else [] := by
  unfold splitRows
  rw [getD_map_range]

theorem getD_splitRows_snd (assign : Nat → Nat → Bool) (rows : List (List ℚ)) (i : Nat) :
    (splitRows assign rows).2.getD i [] =
      if i < rows.length then (splitRow (assign i) (rows.getD i [])).2 else [] := by
  unfold splitRows
  rw [getD_map_range]

theorem getD_of_length_le {α : Type _} (l : List α) (d : α) (i : Nat)
    (h : l.length ≤ i) : l.getD i d = d := by
  rw [List.getD_eq_getElem?_getD, List.getElem?_eq_none h]
  rfl

/-- C9: whenever `rowwise_train_test_split` returns, then in each row the
train and test nonzero column sets are disjoint, their union is exactly the
original row's nonzero column set, and their sizes add up to the original
row's nonzero count — no entry is duplicated, dropped, or moved to another
row. -/
theorem C9_row_partition (X : SciMatrix) (ratio : PyFloat) (rs : Option Int)
    (e : Nat) (tr te : SciMatrix)
    (h : rowwise_train_test_split X ratio rs e = .ok (tr, te)) (i : Nat) :
    Disjoint (nonzeroIdx (tr.rows.getD i [])) (nonzeroIdx (te.rows.getD i [])) ∧
    nonzeroIdx (tr.rows.getD i []) ∪ nonzeroIdx (te.rows.getD i []) =
      nonzeroIdx (X.rows.getD i []) ∧
    (nonzeroIdx (tr.rows.getD i [])).card + (nonzeroIdx (te.rows.getD i [])).card =
      (nonzeroIdx (X.rows.getD i [])).card := by
  obtain ⟨h1, h2⟩ := split_ok_inv X ratio rs e tr te h
  have htr : tr.rows.getD i [] =
      if i < X.rows.length
      then (splitRow (assignOfSeed (effectiveSeed rs e) ratio i) (X.rows.getD i [])).1
      else [] := by
    rw [h1, splitDispatch_fst_rows, getD_splitRows_fst]
  have hte : te.rows.getD i [] =
      if i < X.rows.length
      then (splitRow (assignOfSeed (effectiveSeed rs e) ratio i) (X.rows.getD i [])).2
      else [] := by
    rw [h2, splitDispatch_snd_rows, getD_splitRows_snd]
  by_cases hi : i < X.rows.length
  · rw [htr, hte, if_pos hi, if_pos hi]
    obtain ⟨hdis, hun⟩ :=
      splitRow_partition (assignOfSeed (effectiveSeed rs e) ratio i) (X.rows.getD i [])
    refine ⟨hdis, hun, ?_⟩
    rw [← hun, Finset.card_union_of_disjoint hdis]
  · rw [htr, hte, if_neg hi, if_neg hi,
      getD_of_length_le X.rows [] i (Nat.le_of_not_lt hi)]
    simp [nonzeroIdx]

/-- Witness for C9 on a one-row matrix `[[1, 0, 2]]` split at ratio `1` with
seed `7`: train `[[0, 0, 0]]`, test `[[1, 0, 2]]`. -/
theorem C9_row_partition_witness :
    Disjoint (nonzeroIdx ((⟨.float64, [[0, 0, 0]]⟩ : SciMatrix).rows.getD 0 []))
      (nonzeroIdx ((⟨.float64, [[1, 0, 2]]⟩ : SciMatrix).rows.getD 0 [])) ∧
    nonzeroIdx ((⟨.float64, [[0, 0, 0]]⟩ : SciMatrix).rows.getD 0 []) ∪
      nonzeroIdx ((⟨.float64, [[1, 0, 2]]⟩ : SciMatrix).rows.getD 0 []) =
      nonzeroIdx ((⟨.float64, [[1, 0, 2]]⟩ : SciMatrix).rows.getD 0 []) ∧
    (nonzeroIdx ((⟨.float64, [[0, 0, 0]]⟩ : SciMatrix).rows.getD 0 [])).card +
      (nonzeroIdx ((⟨.float64, [[1, 0, 2]]⟩ : SciMatrix).rows.getD 0 [])).card =
      (nonzeroIdx ((⟨.float64, [[1, 0, 2]]⟩ : SciMatrix).rows.getD 0 [])).card :=
  C9_row_partition ⟨.float64, [[1, 0, 2]]⟩ (.val 1) (some 7) 0
    ⟨.float64, [[0, 0, 0]]⟩ ⟨.float64, [[1, 0, 2]]⟩ (by rfl) 0

theorem lookupIndex_eq_none (x : String) (l : List String) (h : x ∉ l) :
    lookupIndex x l = none := by
  induction l with
  | nil => rfl
  | cons y ys ih =>
      rw [List.mem_cons, not_or] at h
      unfold lookupIndex
      rw [if_neg (fun hyx => h.1 hyx.symm), ih h.2]
      rfl

theorem rec_ok_inv (r : IDMappedRecommender) (userId : String) (cutoff : Nat)
    (forbidden : List String) (allowed : Option (List String))
    (l : List (String × ℚ)) (uidx : Nat)
    (hu : lookupIndex userId r.userIds = some uidx)
    (h : get_recommendation_for_known_user_id r userId cutoff forbidden allowed =
      .ok l) :
    l = (((candidateIndices r uidx forbidden allowed).insertionSort
            (rankBefore (r.scoreRows.getD uidx []))).take cutoff).map
          (fun j => (r.itemIds.getD j "", (r.scoreRows.getD uidx []).getD j 0)) := by
  unfold get_recommendation_for_known_user_id at h
  rw [hu] at h
  rw [Except.ok.injEq] at h
  exact h.symm

theorem mem_candidateIndices (r : IDMappedRecommender) (uidx : Nat)
    (forbidden : List String) (allowed : Option (List String)) (k : Nat)
    (hk : k ∈ candidateIndices r uidx forbidden allowed) :
    k < r.itemIds.length ∧ candidatePred r uidx forbidden allowed k := by
  unfold candidateIndices at hk
  rw [List.mem_filter] at hk
  exact ⟨List.mem_range.mp hk.1, of_decide_eq_true hk.2⟩

theorem mem_rec_output (r : IDMappedRecommender) (uidx : Nat) (cutoff : Nat)
    (forbidden : List String) (allowed : Option (List String)) (p : String × ℚ)
    (hp : p ∈ (((candidateIndices r uidx forbidden allowed).insertionSort
            (rankBefore (r.scoreRows.getD uidx []))).take cutoff).map
          (fun j => (r.itemIds.getD j "", (r.scoreRows.getD uidx []).getD j 0))) :
    ∃ k, k < r.itemIds.length ∧ candidatePred r uidx forbidden allowed k ∧
      p = (r.itemIds.getD k "", (r.scoreRows.getD uidx []).getD k 0) := by
  rw [List.mem_map] at hp
  obtain ⟨k, hk, hpk⟩ := hp
  have hk2 : k ∈ candidateIndices r uidx forbidden allowed :=
    List.mem_insertionSort _ |>.mp (List.mem_of_mem_take hk)
  obtain ⟨hklt, hkpred⟩ := mem_candidateIndices r uidx forbidden allowed k hk2
  exact ⟨k, hklt, hkpred, hpk.symm⟩

/-- C1: every item returned by a known-user recommendation is neither an item
the user already interacted with (a nonzero column of their interaction row)
nor a member of `forbidden_item_ids`; the item identifiers are assumed
duplicate-free, as the IdentifierIndex bijection invariant requires. -/
theorem C1_no_seen_no_forbidden (r : IDMappedRecommender) (userId : String)
    (cutoff : Nat) (forbidden : List String) (allowed : Option (List String))
    (l : List (String × ℚ)) (uidx : Nat)
    (hnd : r.itemIds.Nodup)
    (hu : lookupIndex userId r.userIds = some uidx)
    (h : get_recommendation_for_known_user_id r userId cutoff forbidden allowed =
      .ok l) :
    ∀ p ∈ l, p.1 ∉ forbidden ∧
      ∀ j < r.itemIds.length, (r.matrixRows.getD uidx []).getD j 0 ≠ 0 →
        p.1 ≠ r.itemIds.getD j "" := by
  intro p hp
  rw [rec_ok_inv r userId cutoff forbidden allowed l uidx hu h] at hp
  obtain ⟨k, hklt, ⟨hkrow, hkforb, _⟩, hpk⟩ :=
    mem_rec_output r uidx cutoff forbidden allowed p hp
  subst hpk
  refine ⟨hkforb, ?_⟩
  intro j hj hrow heq
  have hkj : k = j := by
    have heq2 : r.itemIds.getD k "" = r.itemIds.getD j "" := heq
    rw [List.getD_eq_getElem?_getD, List.getD_eq_getElem?_getD,
      List.getElem?_eq_getElem hklt, List.getElem?_eq_getElem hj] at heq2
    simp only [Option.getD_some] at heq2
    exact (List.Nodup.getElem_inj_iff hnd).mp heq2
  rw [hkj] at hkrow
  exact hrow hkrow

/-- Witness for C1 on `sampleRec`, user `u0`, forbidden `["b"]`, at the
returned pair `("c", 1)`. -/
theorem C1_no_seen_no_forbidden_witness :
    ((("c" : String), (1 : ℚ))).1 ∉ ["b"] ∧
      ∀ j < sampleRec.itemIds.length,
        (sampleRec.matrixRows.getD 0 []).getD j 0 ≠ 0 →
          ((("c" : String), (1 : ℚ))).1 ≠ sampleRec.itemIds.getD j "" :=
  C1_no_seen_no_forbidden sampleRec "u0" 3 ["b"] none [("c", 1)] 0
    (by decide) (by rfl) (by rfl) ("c", 1) (List.mem_singleton.mpr rfl)

/-- C2: when an allow list is supplied, every returned item belongs to it;
and when the allow list is contained in the forbidden list, the result is the
empty list (returned normally, not an error). -/
theorem C2_allowed_restriction (r : IDMappedRecommender) (userId : String)
    (cutoff : Nat) (forbidden : List String) (al : List String)
    (l : List (String × ℚ)) (uidx : Nat)
    (hu : lookupIndex userId r.userIds = some uidx)
    (h : get_recommendation_for_known_user_id r userId cutoff forbidden (some al) =
      .ok l) :
    (∀ p ∈ l, p.1 ∈ al) ∧ (al ⊆ forbidden → l = []) := by
  have hl := rec_ok_inv r userId cutoff forbidden (some al) l uidx hu h
  constructor
  · intro p hp
    rw [hl] at hp
    obtain ⟨k, _, ⟨_, _, hall⟩, hpk⟩ :=
      mem_rec_output r uidx cutoff forbidden (some al) p hp
    subst hpk
    exact hall al rfl
  · intro hsub
    have hcand : candidateIndices r uidx forbidden (some al) = [] := by
      unfold candidateIndices
      rw [List.filter_eq_nil_iff]
      intro j _
      rw [decide_eq_true_iff]
      rintro ⟨_, hforb, hall⟩
      exact hforb (hsub (hall al rfl))
    rw [hl, hcand]
    simp

/-- Witness for C2 on `sampleRec`, user `u0`, with allow list = forbidden
list = `["c"]`. -/
theorem C2_allowed_restriction_witness :
    (∀ p ∈ ([] : List (String × ℚ)), p.1 ∈ ["c"]) ∧
    (["c"] ⊆ ["c"] → ([] : List (String × ℚ)) = []) :=
  C2_allowed_restriction sampleRec "u0" 3 ["c"] ["c"] [] 0 (by rfl) (by rfl)

/-- C3: the number of returned recommendations is exactly the minimum of
`cutoff` and the size of the candidate set left after exclusion and
allow/forbid filtering, hence never more than `cutoff`: fewer candidates than
`cutoff` silently truncate, with no padding and no error. -/
theorem C3_result_length (r : IDMappedRecommender) (userId : String)
    (cutoff : Nat) (forbidden : List String) (allowed : Option (List String))
    (l : List (String × ℚ)) (uidx : Nat)
    (hu : lookupIndex userId r.userIds = some uidx)
    (h : get_recommendation_for_known_user_id r userId cutoff forbidden allowed =
      .ok l) :
    l.length = min cutoff (candidateIndices r uidx forbidden allowed).length ∧
    l.length ≤ cutoff := by
  have hl := rec_ok_inv r userId cutoff forbidden allowed l uidx hu h
  have hlen : l.length = min cutoff (candidateIndices r uidx forbidden allowed).length := by
    rw [hl, List.length_map, List.length_take, List.length_insertionSort]
  exact ⟨hlen, hlen ▸ Nat.min_le_left _ _⟩

/-- Witness for C3 on `sampleRec`, user `u1`, cutoff `1` over two
candidates. -/
theorem C3_result_length_witness :
    ([(("c" : String), (3 : ℚ))]).length =
      min 1 (candidateIndices sampleRec 1 [] none).length ∧
    ([(("c" : String), (3 : ℚ))]).length ≤ 1 :=
  C3_result_length sampleRec "u1" 1 [] none [("c", 3)] 1 (by rfl) (by rfl)

/-- C4: a user identifier absent from the index makes
`get_recommendation_for_known_user_id` fail with the unknown-user runtime
error, which is distinct from the validation error. -/
theorem C4_unknown_user (r : IDMappedRecommender) (userId : String)
    (cutoff : Nat) (forbidden : List String) (allowed : Option (List String))
    (h : userId ∉ r.userIds) :
    get_recommendation_for_known_user_id r userId cutoff forbidden allowed =
      .error .unknownUser ∧ RecError.unknownUser ≠ RecError.validation := by
  refine ⟨?_, by decide⟩
  unfold get_recommendation_for_known_user_id
  rw [lookupIndex_eq_none userId r.userIds h]

/-- Witness for C4 on `sampleRec` and the unknown user identifier `zz`. -/
theorem C4_unknown_user_witness :
    get_recommendation_for_known_user_id sampleRec "zz" 3 [] none =
      .error .unknownUser ∧ RecError.unknownUser ≠ RecError.validation :=
  C4_unknown_user sampleRec "zz" 3 [] none (by decide)

/-- C5: constructing the mapped recommender with an identifier list whose
length disagrees with the corresponding interaction-matrix dimension fails
with the validation error, whatever the matrix and score contents. -/
theorem C5_construction_validation (userIds itemIds : List String)
    (nRows nCols : Nat) (matrixRows scoreRows : List (List ℚ))
    (h : userIds.length ≠ nRows ∨ itemIds.length ≠ nCols) :
    IDMappedRecommender.create userIds itemIds nRows nCols matrixRows scoreRows =
      .error .validation := by
  unfold IDMappedRecommender.create
  rw [if_neg]
  rintro ⟨h1, h2⟩
  rcases h with h | h <;> contradiction

/-- Witness for C5: one item identifier too many for a 1 × 1 matrix. -/
theorem C5_construction_validation_witness :
    IDMappedRecommender.create ["u0"] ["a", "b"] 1 1 [[1]] [[2]] =
      .error .validation :=
  C5_construction_validation ["u0"] ["a", "b"] 1 1 [[1]] [[2]]
    (Or.inr (by decide))

end Irspack
